import Mathlib

/-!
Verification of the entity resource route handler
(`src/app/api/entities/[id]/route.ts`): GET / PATCH / DELETE on a
tenant-scoped entity.  The handlers are embedded as pure functions from an
environment of external-call outcomes (session lookup, tenant resolution,
body parsing, domain calls) to an HTTP response together with a trace of
the observable side effects (which domain operations were invoked with
which arguments, and what was logged).
-/

namespace EntityRoute

/-- JSON values, as produced by parsing a request body. -/
inductive Json where
  | null
  | bool (b : Bool)
  | num (n : Int)
  | str (s : String)
  | arr (elems : List Json)
  | obj (fields : List (String × Json))

/-- One entry of a ZodError's `errors` array: issue code, path, message. -/
structure ZodIssue where
  code : String
  path : List String
  message : String
deriving DecidableEq, Repr

/-- A thrown JavaScript value, as classified by the catch blocks:
a ZodError (which is an Error carrying an issues array), any other
Error instance (carrying a message), or a non-Error thrown value. -/
inductive Thrown where
  | jsError (message : String)
  | zodError (issues : List ZodIssue) (message : String)
  | nonErrorValue
deriving DecidableEq, Repr

/-- JS `s.includes(pat)`: substring containment. -/
def includesSubstr (s pat : String) : Bool :=
  decide (pat.data <:+: s.data)

/-- The test `error instanceof Error && error.message.includes("Unauthorized")`
used by every catch block.  A ZodError is an Error instance, so its message
is also inspected; a non-Error thrown value fails the instanceof test. -/
def isUnauthorizedThrown : Thrown → Bool
  | .jsError m => includesSubstr m "Unauthorized"
  | .zodError _ m => includesSubstr m "Unauthorized"
  | .nonErrorValue => false

/-- The test `error instanceof z.ZodError`. -/
def isZodThrown : Thrown → Bool
  | .zodError _ _ => true
  | _ => false

/-- A domain entity record, as returned by the entity service.  Its fields
are opaque to the handler, which only passes the record through. -/
structure Entity where
  id : String
  name : String
  legalForm : String
  status : String
  activityCode : String
deriving DecidableEq, Repr

/-- Result of `tenantContext.getContext()`. -/
structure TenantCtx where
  tenantId : String
deriving DecidableEq, Repr

/-- The `user` member of a session: may lack an `id`. -/
structure SessUser where
  id : Option String
deriving DecidableEq, Repr

/-- A session object: may lack a `user`. -/
structure Sess where
  user : Option SessUser
deriving DecidableEq, Repr

/-- The guard `session?.user?.id` followed by JS truthiness: yields the user
id exactly when the session chain is fully present and the id is a
non-empty string (the empty string is falsy in JS). -/
def getUserId : Option Sess → Option String
  | some ⟨some ⟨some i⟩⟩ => if i = "" then none else some i
  | _ => none

/-- The validated partial update, output of `updateEntitySchema.parse`:
all four fields optional. -/
structure UpdateEntityInput where
  name : Option String
  legalForm : Option String
  status : Option String
  activityCode : Option String
deriving DecidableEq, Repr

/-- Name of a JSON value's type, as reported in zod issue messages. -/
def jsonTypeName : Json → String
  | .null => "null"
  | .bool _ => "boolean"
  | .num _ => "number"
  | .str _ => "string"
  | .arr _ => "array"
  | .obj _ => "object"

/-- Validation of the `name` field: `z.string().min(1).max(255)`. -/
def checkName (v : Json) : List ZodIssue :=
  match v with
  | .str s =>
    (if s.length < 1 then
      [⟨"too_small", ["name"], "String must contain at least 1 character(s)"⟩]
     else []) ++
    (if s.length > 255 then
      [⟨"too_big", ["name"], "String must contain at most 255 character(s)"⟩]
     else [])
  | v => [⟨"invalid_type", ["name"], "Expected string, received " ++ jsonTypeName v⟩]

/-- Validation of a bare `z.string()` field at the given key. -/
def checkStringField (key : String) (v : Json) : List ZodIssue :=
  match v with
  | .str _ => []
  | v => [⟨"invalid_type", [key], "Expected string, received " ++ jsonTypeName v⟩]

/-- The status enum of the update schema. -/
def statusEnum : List String := ["ACTIVE", "PENDING", "ARCHIVED", "SUSPENDED"]

/-- Validation of the `status` field: `z.enum([...])`. -/
def checkStatus (v : Json) : List ZodIssue :=
  match v with
  | .str s =>
    if statusEnum.contains s then []
    else [⟨"invalid_enum_value", ["status"], "Invalid enum value, received " ++ s⟩]
  | v => [⟨"invalid_type", ["status"], "Expected string, received " ++ jsonTypeName v⟩]

/-- Run a field check only when the key is present (optional fields produce
no issue when absent). -/
def checkOpt (check : Json → List ZodIssue) : Option Json → List ZodIssue
  | none => []
  | some v => check v

/-- Extract the string payload of a present, validated string field. -/
def asStr : Option Json → Option String
  | some (Json.str s) => some s
  | _ => none

/-- Core of `updateEntitySchema.parse` on an object: the schema looks up
each declared key, collects per-field issues in schema order, and on
success produces the typed record (unknown keys are stripped, since a
`z.object` defaults to strip mode). -/
def parseLookups (nameV legalV statusV actV : Option Json) :
    Except (List ZodIssue) UpdateEntityInput :=
  match checkOpt checkName nameV ++ checkOpt (checkStringField "legalForm") legalV ++
        checkOpt checkStatus statusV ++ checkOpt (checkStringField "activityCode") actV with
  | [] => .ok ⟨asStr nameV, asStr legalV, asStr statusV, asStr actV⟩
  | issues => .error issues

/-- The keys declared by `updateEntitySchema`. -/
def updateSchemaKeys : List String := ["name", "legalForm", "status", "activityCode"]

/-- `updateEntitySchema.parse` on an object's field list. -/
def parseFields (fields : List (String × Json)) :
    Except (List ZodIssue) UpdateEntityInput :=
  parseLookups (fields.lookup "name") (fields.lookup "legalForm")
    (fields.lookup "status") (fields.lookup "activityCode")

/-- `updateEntitySchema.parse`: a non-object input fails with a single
root-level invalid_type issue; an object is validated field-wise. -/
def parseUpdateEntity (j : Json) : Except (List ZodIssue) UpdateEntityInput :=
  match j with
  | .obj fields => parseFields fields
  | j => .error [⟨"invalid_type", [], "Expected object, received " ++ jsonTypeName j⟩]

/-- The message of the ZodError thrown by a failing `parse` (a rendering of
its issues; each catch block tests `instanceof z.ZodError` before ever
reading the message, so only its existence matters downstream). -/
def renderIssues (issues : List ZodIssue) : String :=
  String.intercalate "; " (issues.map (fun i => i.message))

/-- Outcomes of the external calls a single request can make.  Each field
is the result the corresponding collaborator would produce if invoked:
`Except.error` models that call throwing. -/
structure Env where
  session : Except Thrown (Option Sess)
  tenant : Except Thrown TenantCtx
  getEntityResult : Except Thrown Entity
  updateEntityResult : Except Thrown Entity
  archiveResult : Except Thrown Unit
  deleteResult : Except Thrown Unit
  body : Except Thrown Json
  queryPermanent : Option String

/-- Observable side effects of one handler run: which steps were reached,
which domain operations were invoked with which arguments, and what was
logged at info/error level. -/
structure Trace where
  tenantAttempted : Bool := false
  validationRun : Bool := false
  getCalled : Option (String × String) := none
  updateCalled : Option (String × String × String × UpdateEntityInput) := none
  archiveCalled : Option (String × String × String) := none
  deleteCalled : Option (String × String × String) := none
  infoLog : Option String := none
  errorLog : Option (String × Thrown) := none
deriving DecidableEq, Repr

/-- A response body: error envelope (with optional validation details),
success-with-data, or success-with-message. -/
inductive RespBody where
  | errBody (error : String) (details : Option (List ZodIssue))
  | dataBody (success : Bool) (data : Entity)
  | msgBody (success : Bool) (message : String)
deriving DecidableEq, Repr

/-- An HTTP response: status code and JSON body. -/
structure Response where
  status : Nat
  body : RespBody
deriving DecidableEq, Repr

/-- The try block of GET: auth guard, tenant resolution, domain fetch. -/
def GETtry (env : Env) (pid : String) : Except Thrown Response × Trace :=
  match env.session with
  | .error t => (.error t, {})
  | .ok s =>
    match getUserId s with
    | none => (.ok ⟨401, .errBody "Unauthorized" none⟩, {})
    | some _ =>
      match env.tenant with
      | .error t => (.error t, { tenantAttempted := true })
      | .ok ctx =>
        match env.getEntityResult with
        | .error t =>
          (.error t, { tenantAttempted := true, getCalled := some (ctx.tenantId, pid) })
        | .ok e =>
          (.ok ⟨200, .dataBody true e⟩,
           { tenantAttempted := true, getCalled := some (ctx.tenantId, pid) })

/-- GET handler: try block plus the catch block's error mapping. -/
def GET (env : Env) (pid : String) : Response × Trace :=
  match GETtry env pid with
  | (.ok r, tr) => (r, tr)
  | (.error t, tr) =>
    if isUnauthorizedThrown t then
      (⟨404, .errBody "Not found or unauthorized" none⟩, tr)
    else
      (⟨500, .errBody "Internal server error" none⟩,
       { tr with errorLog := some ("Error fetching entity", t) })

/-- The try block of PATCH: auth guard, tenant resolution, body parse,
schema validation (throwing a ZodError on failure), domain update,
info log. -/
def PATCHtry (env : Env) (pid : String) : Except Thrown Response × Trace :=
  match env.session with
  | .error t => (.error t, {})
  | .ok s =>
    match getUserId s with
    | none => (.ok ⟨401, .errBody "Unauthorized" none⟩, {})
    | some uid =>
      match env.tenant with
      | .error t => (.error t, { tenantAttempted := true })
      | .ok ctx =>
        match env.body with
        | .error t => (.error t, { tenantAttempted := true })
        | .ok j =>
          match parseUpdateEntity j with
          | .error issues =>
            (.error (.zodError issues (renderIssues issues)),
             { tenantAttempted := true, validationRun := true })
          | .ok input =>
            match env.updateEntityResult with
            | .error t =>
              (.error t,
               { tenantAttempted := true, validationRun := true,
                 updateCalled := some (ctx.tenantId, pid, uid, input) })
            | .ok e =>
              (.ok ⟨200, .dataBody true e⟩,
               { tenantAttempted := true, validationRun := true,
                 updateCalled := some (ctx.tenantId, pid, uid, input),
                 infoLog := some "Entity updated successfully" })

/-- PATCH handler: try block plus the catch block's error mapping
(ZodError first, then the Unauthorized marker, then the generic 500). -/
def PATCH (env : Env) (pid : String) : Response × Trace :=
  match PATCHtry env pid with
  | (.ok r, tr) => (r, tr)
  | (.error t, tr) =>
    match t with
    | .zodError issues _ => (⟨400, .errBody "Validation error" (some issues)⟩, tr)
    | t =>
      if isUnauthorizedThrown t then
        (⟨404, .errBody "Not found or unauthorized" none⟩, tr)
      else
        (⟨500, .errBody "Internal server error" none⟩,
         { tr with errorLog := some ("Error updating entity", t) })

/-- The try block of DELETE: auth guard, tenant resolution, query-flag
test with strict string equality, then hard delete or archive, info log. -/
def DELETEtry (env : Env) (pid : String) : Except Thrown Response × Trace :=
  match env.session with
  | .error t => (.error t, {})
  | .ok s =>
    match getUserId s with
    | none => (.ok ⟨401, .errBody "Unauthorized" none⟩, {})
    | some uid =>
      match env.tenant with
      | .error t => (.error t, { tenantAttempted := true })
      | .ok ctx =>
        if env.queryPermanent = some "true" then
          match env.deleteResult with
          | .error t =>
            (.error t,
             { tenantAttempted := true, deleteCalled := some (ctx.tenantId, pid, uid) })
          | .ok _ =>
            (.ok ⟨200, .msgBody true "Entity deleted"⟩,
             { tenantAttempted := true, deleteCalled := some (ctx.tenantId, pid, uid),
               infoLog := some "Entity deleted/archived successfully" })
        else
          match env.archiveResult with
          | .error t =>
            (.error t,
             { tenantAttempted := true, archiveCalled := some (ctx.tenantId, pid, uid) })
          | .ok _ =>
            (.ok ⟨200, .msgBody true "Entity archived"⟩,
             { tenantAttempted := true, archiveCalled := some (ctx.tenantId, pid, uid),
               infoLog := some "Entity deleted/archived successfully" })

/-- DELETE handler: try block plus the catch block's error mapping. -/
def DELETE (env : Env) (pid : String) : Response × Trace :=
  match DELETEtry env pid with
  | (.ok r, tr) => (r, tr)
  | (.error t, tr) =>
    if isUnauthorizedThrown t then
      (⟨404, .errBody "Not found or unauthorized" none⟩, tr)
    else
      (⟨500, .errBody "Internal server error" none⟩,
       { tr with errorLog := some ("Error deleting entity", t) })

/-- Auth success: the session lookup returned a session whose user id
passes the truthiness guard. -/
def authOk (env : Env) : Prop :=
  ∃ s uid, env.session = Except.ok s ∧ getUserId s = some uid

/-- A sample entity used in concrete environments. -/
def entA : Entity := ⟨"e1", "Acme", "LLC", "ACTIVE", "62010"⟩

/-- A sample tenant context. -/
def ctxA : TenantCtx := ⟨"tenant1"⟩

/-- A sample fully-populated session. -/
def sessA : Option Sess := some ⟨some ⟨some "user1"⟩⟩

/-- A baseline environment in which every external call succeeds. -/
def envBase : Env :=
  { session := .ok sessA, tenant := .ok ctxA, getEntityResult := .ok entA,
    updateEntityResult := .ok entA, archiveResult := .ok (), deleteResult := .ok (),
    body := .ok (Json.obj []), queryPermanent := none }

/-- Looking up a key is unaffected by appending entries whose keys all
differ from it. -/
theorem lookup_append_unknown (k : String) (l₁ l₂ : List (String × Json))
    (h : ∀ kv ∈ l₂, kv.1 ≠ k) : (l₁ ++ l₂).lookup k = l₁.lookup k := by
  induction l₁ with
  | nil =>
    simp only [List.nil_append, List.lookup_nil]
    induction l₂ with
    | nil => rfl
    | cons kv t ih =>
      obtain ⟨k₂, v₂⟩ := kv
      have hk : k₂ ≠ k := h (k₂, v₂) (List.mem_cons_self _ _)
      have hbeq : (k == k₂) = false := beq_eq_false_iff_ne.mpr (fun hc => hk hc.symm)
      simp only [List.lookup_cons, hbeq]
      exact ih (fun kv hm => h kv (List.mem_cons_of_mem _ hm))
  | cons kv t ih =>
    obtain ⟨k₁, v₁⟩ := kv
    cases hbeq : k == k₁ <;>
      simp only [List.cons_append, List.lookup_cons, hbeq, ih]

/-- C2: every request (GET, PATCH or DELETE) whose session lookup returns
without a session carrying a non-empty user identifier is answered with
status 401 and body with error "Unauthorized". -/
theorem missing_session_returns_401 (env : Env) (pid : String) (s : Option Sess)
    (hs : env.session = .ok s) (hid : getUserId s = none) :
    (GET env pid).1 = ⟨401, .errBody "Unauthorized" none⟩ ∧
    (PATCH env pid).1 = ⟨401, .errBody "Unauthorized" none⟩ ∧
    (DELETE env pid).1 = ⟨401, .errBody "Unauthorized" none⟩ := by
  simp [GET, GETtry, PATCH, PATCHtry, DELETE, DELETEtry, hs, hid]

/-- An environment whose session lookup yields a null session. -/
def envNoAuth : Env := { envBase with session := .ok none }

/-- Witness for C2 at a concrete environment with a null session. -/
theorem missing_session_returns_401_w :
    (GET envNoAuth "e1").1 = ⟨401, .errBody "Unauthorized" none⟩ ∧
    (PATCH envNoAuth "e1").1 = ⟨401, .errBody "Unauthorized" none⟩ ∧
    (DELETE envNoAuth "e1").1 = ⟨401, .errBody "Unauthorized" none⟩ :=
  missing_session_returns_401 envNoAuth "e1" none rfl rfl

/-- C1: on GET with a valid session, if the domain fetch throws an error
carrying the Unauthorized marker — however the rest of its message reads —
the response is 404 with the fixed generic body. -/
theorem get_domain_unauthorized_maps_404 (env : Env) (pid : String)
    (s : Option Sess) (uid : String) (ctx : TenantCtx) (t : Thrown)
    (hs : env.session = .ok s) (hid : getUserId s = some uid)
    (ht : env.tenant = .ok ctx) (hg : env.getEntityResult = .error t)
    (hm : isUnauthorizedThrown t = true) :
    (GET env pid).1 = ⟨404, .errBody "Not found or unauthorized" none⟩ := by
  simp [GET, GETtry, hs, hid, ht, hg, hm]

/-- An environment whose domain fetch throws an error with the marker. -/
def envGetUnauth : Env :=
  { envBase with
    getEntityResult := .error (.jsError "Unauthorized: entity e1 missing for tenant") }

/-- Witness for C1 at a concrete marker-carrying domain error. -/
theorem get_domain_unauthorized_maps_404_w :
    (GET envGetUnauth "e1").1 = ⟨404, .errBody "Not found or unauthorized" none⟩ :=
  get_domain_unauthorized_maps_404 envGetUnauth "e1" sessA "user1" ctxA
    (.jsError "Unauthorized: entity e1 missing for tenant") rfl rfl rfl rfl (by decide)

/-- C3: an authenticated PATCH whose parsed JSON body fails the update
schema is answered 400 with the per-field issues in the details, and the
domain update is never invoked. -/
theorem patch_invalid_body_400_no_update (env : Env) (pid : String)
    (s : Option Sess) (uid : String) (ctx : TenantCtx) (j : Json)
    (issues : List ZodIssue)
    (hs : env.session = .ok s) (hid : getUserId s = some uid)
    (ht : env.tenant = .ok ctx) (hb : env.body = .ok j)
    (hp : parseUpdateEntity j = .error issues) :
    (PATCH env pid).1 = ⟨400, .errBody "Validation error" (some issues)⟩ ∧
    (PATCH env pid).2.updateCalled = none := by
  simp [PATCH, PATCHtry, hs, hid, ht, hb, hp]

/-- An environment whose PATCH body has an empty name. -/
def envBadName : Env := { envBase with body := .ok (Json.obj [("name", Json.str "")]) }

/-- An environment whose PATCH body has a status outside the enum. -/
def envBadStatus : Env :=
  { envBase with body := .ok (Json.obj [("status", Json.str "DELETED")]) }

/-- Witness for C3 on the two bodies named by the claim: an empty name
yields the name-length issue, a status outside the enum yields the enum
issue; in both cases 400 and no update call. -/
theorem patch_invalid_body_400_no_update_w :
    ((PATCH envBadName "e1").1 =
      ⟨400, .errBody "Validation error"
        (some [⟨"too_small", ["name"], "String must contain at least 1 character(s)"⟩])⟩ ∧
     (PATCH envBadName "e1").2.updateCalled = none) ∧
    ((PATCH envBadStatus "e1").1 =
      ⟨400, .errBody "Validation error"
        (some [⟨"invalid_enum_value", ["status"], "Invalid enum value, received DELETED"⟩])⟩ ∧
     (PATCH envBadStatus "e1").2.updateCalled = none) :=
  ⟨patch_invalid_body_400_no_update envBadName "e1" sessA "user1" ctxA
      (Json.obj [("name", Json.str "")])
      [⟨"too_small", ["name"], "String must contain at least 1 character(s)"⟩]
      rfl rfl rfl rfl rfl,
   patch_invalid_body_400_no_update envBadStatus "e1" sessA "user1" ctxA
      (Json.obj [("status", Json.str "DELETED")])
      [⟨"invalid_enum_value", ["status"], "Invalid enum value, received DELETED"⟩]
      rfl rfl rfl rfl rfl⟩

/-- C4: on an authenticated DELETE, the permanent flag selects the domain
operation and the success message: with permanent set to "true" the hard
delete runs (and the archive does not) and the message is "Entity deleted";
with the parameter absent the archive runs (and the hard delete does not)
and the message is "Entity archived". -/
theorem delete_permanent_selects_operation (env : Env) (pid : String)
    (s : Option Sess) (uid : String) (ctx : TenantCtx)
    (hs : env.session = .ok s) (hid : getUserId s = some uid)
    (ht : env.tenant = .ok ctx)
    (hdel : env.deleteResult = .ok ()) (harch : env.archiveResult = .ok ()) :
    (env.queryPermanent = some "true" →
      (DELETE env pid).1 = ⟨200, .msgBody true "Entity deleted"⟩ ∧
      (DELETE env pid).2.deleteCalled = some (ctx.tenantId, pid, uid) ∧
      (DELETE env pid).2.archiveCalled = none) ∧
    (env.queryPermanent = none →
      (DELETE env pid).1 = ⟨200, .msgBody true "Entity archived"⟩ ∧
      (DELETE env pid).2.archiveCalled = some (ctx.tenantId, pid, uid) ∧
      (DELETE env pid).2.deleteCalled = none) := by
  constructor
  · intro hq
    simp [DELETE, DELETEtry, hs, hid, ht, hq, hdel]
  · intro hq
    simp [DELETE, DELETEtry, hs, hid, ht, hq, harch]

/-- An environment whose request carries permanent equal to "true". -/
def envPerm : Env := { envBase with queryPermanent := some "true" }

/-- Witness for C4 at concrete environments with and without the flag. -/
theorem delete_permanent_selects_operation_w :
    ((DELETE envPerm "e1").1 = ⟨200, .msgBody true "Entity deleted"⟩ ∧
     (DELETE envPerm "e1").2.deleteCalled = some ("tenant1", "e1", "user1") ∧
     (DELETE envPerm "e1").2.archiveCalled = none) ∧
    ((DELETE envBase "e1").1 = ⟨200, .msgBody true "Entity archived"⟩ ∧
     (DELETE envBase "e1").2.archiveCalled = some ("tenant1", "e1", "user1") ∧
     (DELETE envBase "e1").2.deleteCalled = none) :=
  ⟨(delete_permanent_selects_operation envPerm "e1" sessA "user1" ctxA
      rfl rfl rfl rfl rfl).1 rfl,
   (delete_permanent_selects_operation envBase "e1" sessA "user1" ctxA
      rfl rfl rfl rfl rfl).2 rfl⟩

/-- C8: on an authenticated DELETE the hard-delete branch is taken exactly
when the permanent parameter equals the lowercase string "true"; every
other value, and an absent parameter, routes to the archive operation. -/
theorem delete_permanent_exact_string (env : Env) (pid : String)
    (s : Option Sess) (uid : String) (ctx : TenantCtx)
    (hs : env.session = .ok s) (hid : getUserId s = some uid)
    (ht : env.tenant = .ok ctx) :
    ((DELETE env pid).2.deleteCalled ≠ none ↔ env.queryPermanent = some "true") ∧
    (env.queryPermanent ≠ some "true" →
      (DELETE env pid).2.archiveCalled = some (ctx.tenantId, pid, uid) ∧
      (DELETE env pid).2.deleteCalled = none) := by
  by_cases hq : env.queryPermanent = some "true"
  · rcases hd : env.deleteResult with t | u
    · cases hm : isUnauthorizedThrown t <;>
        simp [DELETE, DELETEtry, hs, hid, ht, hq, hd, hm]
    · simp [DELETE, DELETEtry, hs, hid, ht, hq, hd]
  · rcases ha : env.archiveResult with t | u
    · cases hm : isUnauthorizedThrown t <;>
        simp [DELETE, DELETEtry, hs, hid, ht, hq, ha, hm]
    · simp [DELETE, DELETEtry, hs, hid, ht, hq, ha]

/-- Environment with permanent equal to "TRUE". -/
def envPermUpper : Env := { envBase with queryPermanent := some "TRUE" }

/-- Environment with permanent equal to "1". -/
def envPermOne : Env := { envBase with queryPermanent := some "1" }

/-- Environment with permanent present but empty. -/
def envPermEmpty : Env := { envBase with queryPermanent := some "" }

/-- Witness for C8: "true" hard-deletes; "TRUE", "1", "" and an absent
parameter all archive. -/
theorem delete_permanent_exact_string_w :
    (DELETE envPerm "e1").2.deleteCalled ≠ none ∧
    ((DELETE envPermUpper "e1").2.archiveCalled = some ("tenant1", "e1", "user1") ∧
     (DELETE envPermUpper "e1").2.deleteCalled = none) ∧
    ((DELETE envPermOne "e1").2.archiveCalled = some ("tenant1", "e1", "user1") ∧
     (DELETE envPermOne "e1").2.deleteCalled = none) ∧
    ((DELETE envPermEmpty "e1").2.archiveCalled = some ("tenant1", "e1", "user1") ∧
     (DELETE envPermEmpty "e1").2.deleteCalled = none) ∧
    ((DELETE envBase "e1").2.archiveCalled = some ("tenant1", "e1", "user1") ∧
     (DELETE envBase "e1").2.deleteCalled = none) :=
  ⟨(delete_permanent_exact_string envPerm "e1" sessA "user1" ctxA
      rfl rfl rfl).1.mpr rfl,
   (delete_permanent_exact_string envPermUpper "e1" sessA "user1" ctxA
      rfl rfl rfl).2 (by decide),
   (delete_permanent_exact_string envPermOne "e1" sessA "user1" ctxA
      rfl rfl rfl).2 (by decide),
   (delete_permanent_exact_string envPermEmpty "e1" sessA "user1" ctxA
      rfl rfl rfl).2 (by decide),
   (delete_permanent_exact_string envBase "e1" sessA "user1" ctxA
      rfl rfl rfl).2 (by decide)⟩

/-- C5: whenever a request fails with anything that is neither a ZodError
nor an error carrying the Unauthorized marker — be it the session lookup,
tenant resolution, the body read, or any of the four domain operations
throwing — the operation is answered 500 with the fixed generic body,
whatever the thrown detail, and the detail is recorded only in the
error-level log entry, never in the response. -/
theorem unclassified_failure_500_generic (env : Env) (pid : String) (t : Thrown)
    (hm : isUnauthorizedThrown t = false) (hz : isZodThrown t = false) :
    (env.session = .error t →
      ((GET env pid).1 = ⟨500, .errBody "Internal server error" none⟩ ∧
       (GET env pid).2.errorLog = some ("Error fetching entity", t)) ∧
      ((PATCH env pid).1 = ⟨500, .errBody "Internal server error" none⟩ ∧
       (PATCH env pid).2.errorLog = some ("Error updating entity", t)) ∧
      ((DELETE env pid).1 = ⟨500, .errBody "Internal server error" none⟩ ∧
       (DELETE env pid).2.errorLog = some ("Error deleting entity", t))) ∧
    (∀ s uid, env.session = .ok s → getUserId s = some uid →
      env.tenant = .error t →
      ((GET env pid).1 = ⟨500, .errBody "Internal server error" none⟩ ∧
       (GET env pid).2.errorLog = some ("Error fetching entity", t)) ∧
      ((PATCH env pid).1 = ⟨500, .errBody "Internal server error" none⟩ ∧
       (PATCH env pid).2.errorLog = some ("Error updating entity", t)) ∧
      ((DELETE env pid).1 = ⟨500, .errBody "Internal server error" none⟩ ∧
       (DELETE env pid).2.errorLog = some ("Error deleting entity", t))) ∧
    (∀ s uid ctx, env.session = .ok s → getUserId s = some uid →
      env.tenant = .ok ctx →
      (env.getEntityResult = .error t →
        (GET env pid).1 = ⟨500, .errBody "Internal server error" none⟩ ∧
        (GET env pid).2.errorLog = some ("Error fetching entity", t)) ∧
      (env.body = .error t →
        (PATCH env pid).1 = ⟨500, .errBody "Internal server error" none⟩ ∧
        (PATCH env pid).2.errorLog = some ("Error updating entity", t)) ∧
      (∀ j input, env.body = .ok j → parseUpdateEntity j = .ok input →
        env.updateEntityResult = .error t →
        (PATCH env pid).1 = ⟨500, .errBody "Internal server error" none⟩ ∧
        (PATCH env pid).2.errorLog = some ("Error updating entity", t)) ∧
      (env.queryPermanent = some "true" → env.deleteResult = .error t →
        (DELETE env pid).1 = ⟨500, .errBody "Internal server error" none⟩ ∧
        (DELETE env pid).2.errorLog = some ("Error deleting entity", t)) ∧
      (env.queryPermanent ≠ some "true" → env.archiveResult = .error t →
        (DELETE env pid).1 = ⟨500, .errBody "Internal server error" none⟩ ∧
        (DELETE env pid).2.errorLog = some ("Error deleting entity", t))) := by
  cases t with
  | zodError issues m => simp [isZodThrown] at hz
  | jsError m =>
    simp only [isUnauthorizedThrown] at hm
    refine ⟨fun hsf => ?_,
      fun s uid hs hu htf => ?_,
      fun s uid ctx hs hu ht =>
        ⟨fun hg => ?_, fun hbf => ?_, fun j input hb hp hup => ?_,
         fun hq hd => ?_, fun hq ha => ?_⟩⟩
    · simp [GET, GETtry, PATCH, PATCHtry, DELETE, DELETEtry,
        isUnauthorizedThrown, hsf, hm]
    · simp [GET, GETtry, PATCH, PATCHtry, DELETE, DELETEtry,
        isUnauthorizedThrown, hs, hu, htf, hm]
    · simp [GET, GETtry, isUnauthorizedThrown, hs, hu, ht, hg, hm]
    · simp [PATCH, PATCHtry, isUnauthorizedThrown, hs, hu, ht, hbf, hm]
    · simp [PATCH, PATCHtry, isUnauthorizedThrown, hs, hu, ht, hb, hp, hup, hm]
    · simp [DELETE, DELETEtry, isUnauthorizedThrown, hs, hu, ht, hq, hd, hm]
    · simp [DELETE, DELETEtry, isUnauthorizedThrown, hs, hu, ht, hq, ha, hm]
  | nonErrorValue =>
    refine ⟨fun hsf => ?_,
      fun s uid hs hu htf => ?_,
      fun s uid ctx hs hu ht =>
        ⟨fun hg => ?_, fun hbf => ?_, fun j input hb hp hup => ?_,
         fun hq hd => ?_, fun hq ha => ?_⟩⟩
    · simp [GET, GETtry, PATCH, PATCHtry, DELETE, DELETEtry,
        isUnauthorizedThrown, hsf]
    · simp [GET, GETtry, PATCH, PATCHtry, DELETE, DELETEtry,
        isUnauthorizedThrown, hs, hu, htf]
    · simp [GET, GETtry, isUnauthorizedThrown, hs, hu, ht, hg]
    · simp [PATCH, PATCHtry, isUnauthorizedThrown, hs, hu, ht, hbf]
    · simp [PATCH, PATCHtry, isUnauthorizedThrown, hs, hu, ht, hb, hp, hup]
    · simp [DELETE, DELETEtry, isUnauthorizedThrown, hs, hu, ht, hq, hd]
    · simp [DELETE, DELETEtry, isUnauthorizedThrown, hs, hu, ht, hq, ha]

/-- An environment in which every domain operation throws an unclassified
error. -/
def envFail : Env :=
  { envBase with
    getEntityResult := .error (.jsError "database timeout"),
    updateEntityResult := .error (.jsError "database timeout"),
    archiveResult := .error (.jsError "database timeout") }

/-- An environment whose session lookup itself throws. -/
def envSessionFail : Env := { envBase with session := .error (.jsError "database timeout") }

/-- An environment whose tenant resolution throws. -/
def envTenantFail : Env := { envBase with tenant := .error (.jsError "database timeout") }

/-- An environment whose body read throws an unclassified error. -/
def envBodyFail : Env := { envBase with body := .error (.jsError "database timeout") }

/-- An environment requesting a permanent delete whose hard delete throws. -/
def envDeleteFail : Env :=
  { envBase with
    queryPermanent := some "true",
    deleteResult := .error (.jsError "database timeout") }

/-- Witness for C5 at a concrete unclassified error thrown, in turn, by
the session lookup, tenant resolution, each of the three domain reads or
writes, the body read, and the permanent delete. -/
theorem unclassified_failure_500_generic_w :
    ((GET envSessionFail "e1").1 = ⟨500, .errBody "Internal server error" none⟩ ∧
     (PATCH envSessionFail "e1").1 = ⟨500, .errBody "Internal server error" none⟩ ∧
     (DELETE envSessionFail "e1").1 = ⟨500, .errBody "Internal server error" none⟩) ∧
    ((GET envTenantFail "e1").1 = ⟨500, .errBody "Internal server error" none⟩ ∧
     (GET envTenantFail "e1").2.errorLog =
      some ("Error fetching entity", .jsError "database timeout")) ∧
    ((GET envFail "e1").1 = ⟨500, .errBody "Internal server error" none⟩ ∧
     (GET envFail "e1").2.errorLog =
      some ("Error fetching entity", .jsError "database timeout")) ∧
    ((PATCH envFail "e1").1 = ⟨500, .errBody "Internal server error" none⟩ ∧
     (PATCH envFail "e1").2.errorLog =
      some ("Error updating entity", .jsError "database timeout")) ∧
    ((PATCH envBodyFail "e1").1 = ⟨500, .errBody "Internal server error" none⟩ ∧
     (PATCH envBodyFail "e1").2.errorLog =
      some ("Error updating entity", .jsError "database timeout")) ∧
    ((DELETE envFail "e1").1 = ⟨500, .errBody "Internal server error" none⟩ ∧
     (DELETE envFail "e1").2.errorLog =
      some ("Error deleting entity", .jsError "database timeout")) ∧
    ((DELETE envDeleteFail "e1").1 = ⟨500, .errBody "Internal server error" none⟩ ∧
     (DELETE envDeleteFail "e1").2.errorLog =
      some ("Error deleting entity", .jsError "database timeout")) := by
  have h1 := unclassified_failure_500_generic envSessionFail "e1"
    (.jsError "database timeout") (by decide) rfl
  have h2 := unclassified_failure_500_generic envTenantFail "e1"
    (.jsError "database timeout") (by decide) rfl
  have h3 := unclassified_failure_500_generic envFail "e1"
    (.jsError "database timeout") (by decide) rfl
  have h4 := unclassified_failure_500_generic envBodyFail "e1"
    (.jsError "database timeout") (by decide) rfl
  have h5 := unclassified_failure_500_generic envDeleteFail "e1"
    (.jsError "database timeout") (by decide) rfl
  have c1 := h1.1 rfl
  have c2 := h2.2.1 sessA "user1" rfl rfl rfl
  have c3 := h3.2.2 sessA "user1" ctxA rfl rfl rfl
  have c4 := h4.2.2 sessA "user1" ctxA rfl rfl rfl
  have c5 := h5.2.2 sessA "user1" ctxA rfl rfl rfl
  exact ⟨⟨c1.1.1, c1.2.1.1, c1.2.2.1⟩, c2.1,
    c3.1 rfl,
    c3.2.2.1 (Json.obj []) ⟨none, none, none, none⟩ rfl rfl rfl,
    c4.2.1 rfl,
    c3.2.2.2.2 (by decide) rfl,
    c5.2.2.2.1 rfl rfl⟩

/-- C6: on an authenticated request whose domain call succeeds, GET returns
200 with exactly the fetched entity as data; and PATCH with the body
carrying only legalForm "LLC" calls the update with exactly that field
populated and the rest absent, returning 200 with the updated entity. -/
theorem success_paths_return_entity (env : Env) (pid : String)
    (s : Option Sess) (uid : String) (ctx : TenantCtx)
    (hs : env.session = .ok s) (hid : getUserId s = some uid)
    (ht : env.tenant = .ok ctx) :
    (∀ e, env.getEntityResult = .ok e →
      (GET env pid).1 = ⟨200, .dataBody true e⟩) ∧
    (∀ u, env.body = .ok (Json.obj [("legalForm", Json.str "LLC")]) →
      env.updateEntityResult = .ok u →
      (PATCH env pid).2.updateCalled =
        some (ctx.tenantId, pid, uid, ⟨none, some "LLC", none, none⟩) ∧
      (PATCH env pid).1 = ⟨200, .dataBody true u⟩) := by
  have hp : parseUpdateEntity (Json.obj [("legalForm", Json.str "LLC")]) =
      .ok ⟨none, some "LLC", none, none⟩ := rfl
  refine ⟨fun e hg => ?_, fun u hb hu => ?_⟩
  · simp [GET, GETtry, hs, hid, ht, hg]
  · simp [PATCH, PATCHtry, hs, hid, ht, hb, hp, hu]

/-- An environment whose PATCH body carries only legalForm "LLC" and whose
update returns the sample entity. -/
def envLegalForm : Env :=
  { envBase with body := .ok (Json.obj [("legalForm", Json.str "LLC")]) }

/-- Witness for C6 at concrete successful GET and PATCH runs. -/
theorem success_paths_return_entity_w :
    (GET envBase "e1").1 = ⟨200, .dataBody true entA⟩ ∧
    ((PATCH envLegalForm "e1").2.updateCalled =
      some ("tenant1", "e1", "user1", ⟨none, some "LLC", none, none⟩) ∧
     (PATCH envLegalForm "e1").1 = ⟨200, .dataBody true entA⟩) :=
  ⟨(success_paths_return_entity envBase "e1" sessA "user1" ctxA
      rfl rfl rfl).1 entA rfl,
   (success_paths_return_entity envLegalForm "e1" sessA "user1" ctxA
      rfl rfl rfl).2 entA rfl rfl⟩

/-- C9: on an authenticated PATCH whose body fails JSON parsing (the parse
call throws an ordinary Error), schema validation never runs, the domain
update is never invoked, the status is never 400, and — the syntax-error
message not carrying the Unauthorized marker — the response is the generic
500. -/
theorem patch_body_parse_failure_is_500 (env : Env) (pid : String)
    (s : Option Sess) (uid : String) (ctx : TenantCtx) (m : String)
    (hs : env.session = .ok s) (hid : getUserId s = some uid)
    (ht : env.tenant = .ok ctx) (hb : env.body = .error (.jsError m)) :
    (PATCH env pid).2.validationRun = false ∧
    (PATCH env pid).2.updateCalled = none ∧
    (PATCH env pid).1.status ≠ 400 ∧
    (includesSubstr m "Unauthorized" = false →
      (PATCH env pid).1 = ⟨500, .errBody "Internal server error" none⟩ ∧
      (PATCH env pid).2.errorLog = some ("Error updating entity", .jsError m)) := by
  cases hm : includesSubstr m "Unauthorized" <;>
    simp [PATCH, PATCHtry, isUnauthorizedThrown, hs, hid, ht, hb, hm]

/-- An environment whose PATCH body is not syntactically valid JSON: the
body read throws a SyntaxError. -/
def envBadJson : Env :=
  { envBase with
    body := .error (.jsError "Unexpected token a in JSON at position 0") }

/-- Witness for C9 at a concrete JSON syntax error. -/
theorem patch_body_parse_failure_is_500_w :
    (PATCH envBadJson "e1").2.validationRun = false ∧
    (PATCH envBadJson "e1").2.updateCalled = none ∧
    (PATCH envBadJson "e1").1.status ≠ 400 ∧
    ((PATCH envBadJson "e1").1 = ⟨500, .errBody "Internal server error" none⟩ ∧
     (PATCH envBadJson "e1").2.errorLog =
      some ("Error updating entity",
            .jsError "Unexpected token a in JSON at position 0")) := by
  have h := patch_body_parse_failure_is_500 envBadJson "e1" sessA "user1" ctxA
    "Unexpected token a in JSON at position 0" rfl rfl rfl rfl
  exact ⟨h.1, h.2.1, h.2.2.1, h.2.2.2 (by decide)⟩

/-- C10: on an authenticated PATCH whose JSON body is a valid object
carrying extra keys outside the schema, validation succeeds with the very
input the known fields alone produce, and the update receives only those
known fields — the unknown keys are stripped and never forwarded. -/
theorem patch_unknown_keys_stripped (env : Env) (pid : String)
    (s : Option Sess) (uid : String) (ctx : TenantCtx)
    (fields extra : List (String × Json)) (input : UpdateEntityInput) (u : Entity)
    (hs : env.session = .ok s) (hid : getUserId s = some uid)
    (ht : env.tenant = .ok ctx)
    (hb : env.body = .ok (Json.obj (fields ++ extra)))
    (hextra : ∀ kv ∈ extra, kv.1 ∉ updateSchemaKeys)
    (hok : parseFields fields = .ok input)
    (hu : env.updateEntityResult = .ok u) :
    parseUpdateEntity (Json.obj (fields ++ extra)) = .ok input ∧
    (PATCH env pid).2.updateCalled = some (ctx.tenantId, pid, uid, input) ∧
    (PATCH env pid).1 = ⟨200, .dataBody true u⟩ := by
  have hunk : ∀ k, k ∈ updateSchemaKeys → ∀ kv ∈ extra, kv.1 ≠ k :=
    fun k hk kv hm hc => hextra kv hm (hc ▸ hk)
  have hp : parseUpdateEntity (Json.obj (fields ++ extra)) = .ok input := by
    show parseFields (fields ++ extra) = .ok input
    rw [parseFields,
      lookup_append_unknown _ _ _ (hunk "name" (by simp [updateSchemaKeys])),
      lookup_append_unknown _ _ _ (hunk "legalForm" (by simp [updateSchemaKeys])),
      lookup_append_unknown _ _ _ (hunk "status" (by simp [updateSchemaKeys])),
      lookup_append_unknown _ _ _ (hunk "activityCode" (by simp [updateSchemaKeys]))]
    exact hok
  refine ⟨hp, ?_⟩
  simp [PATCH, PATCHtry, hs, hid, ht, hb, hp, hu]

/-- An environment whose PATCH body mixes one known valid field with two
unknown keys. -/
def envExtraKeys : Env :=
  { envBase with
    body := .ok (Json.obj
      [("legalForm", Json.str "LLC"),
       ("role", Json.str "admin"), ("tenantOverride", Json.str "t2")]) }

/-- Witness for C10: the two unknown keys neither fail validation nor
reach the update input. -/
theorem patch_unknown_keys_stripped_w :
    parseUpdateEntity (Json.obj
      [("legalForm", Json.str "LLC"),
       ("role", Json.str "admin"), ("tenantOverride", Json.str "t2")]) =
      .ok ⟨none, some "LLC", none, none⟩ ∧
    (PATCH envExtraKeys "e1").2.updateCalled =
      some ("tenant1", "e1", "user1", ⟨none, some "LLC", none, none⟩) ∧
    (PATCH envExtraKeys "e1").1 = ⟨200, .dataBody true entA⟩ :=
  patch_unknown_keys_stripped envExtraKeys "e1" sessA "user1" ctxA
    [("legalForm", Json.str "LLC")]
    [("role", Json.str "admin"), ("tenantOverride", Json.str "t2")]
    ⟨none, some "LLC", none, none⟩ entA
    rfl rfl rfl rfl (by simp [updateSchemaKeys]) rfl rfl

/-- C7: the steps of every handler happen strictly in order.  A request
answered 401 has an empty trace (no tenant resolution, no validation, no
domain call, no log); tenant resolution is attempted only after the auth
guard has passed; PATCH validation runs only after tenant resolution; and
each domain operation is invoked only after the steps before it succeed. -/
theorem handler_steps_strictly_ordered (env : Env) (pid : String) :
    ((GET env pid).1.status = 401 → (GET env pid).2 = {}) ∧
    ((GET env pid).2.tenantAttempted = true → authOk env) ∧
    ((GET env pid).2.getCalled ≠ none → (GET env pid).2.tenantAttempted = true) ∧
    ((PATCH env pid).1.status = 401 → (PATCH env pid).2 = {}) ∧
    ((PATCH env pid).2.tenantAttempted = true → authOk env) ∧
    ((PATCH env pid).2.validationRun = true → (PATCH env pid).2.tenantAttempted = true) ∧
    ((PATCH env pid).2.updateCalled ≠ none → (PATCH env pid).2.validationRun = true) ∧
    ((DELETE env pid).1.status = 401 → (DELETE env pid).2 = {}) ∧
    ((DELETE env pid).2.tenantAttempted = true → authOk env) ∧
    (((DELETE env pid).2.archiveCalled ≠ none ∨ (DELETE env pid).2.deleteCalled ≠ none) →
      (DELETE env pid).2.tenantAttempted = true) := by
  have hGET : ((GET env pid).1.status = 401 → (GET env pid).2 = {}) ∧
      ((GET env pid).2.tenantAttempted = true → authOk env) ∧
      ((GET env pid).2.getCalled ≠ none → (GET env pid).2.tenantAttempted = true) := by
    cases hs : env.session with
    | error t =>
      cases hm : isUnauthorizedThrown t <;> simp [GET, GETtry, hs, hm]
    | ok s =>
      cases hu : getUserId s with
      | none => simp [GET, GETtry, hs, hu]
      | some uid =>
        have hA : authOk env := ⟨s, uid, hs, hu⟩
        cases ht : env.tenant with
        | error t =>
          cases hm : isUnauthorizedThrown t <;>
            simp [GET, GETtry, hs, hu, ht, hm, hA]
        | ok ctx =>
          cases hg : env.getEntityResult with
          | error t =>
            cases hm : isUnauthorizedThrown t <;>
              simp [GET, GETtry, hs, hu, ht, hg, hm, hA]
          | ok e => simp [GET, GETtry, hs, hu, ht, hg, hA]
  have hPATCH : ((PATCH env pid).1.status = 401 → (PATCH env pid).2 = {}) ∧
      ((PATCH env pid).2.tenantAttempted = true → authOk env) ∧
      ((PATCH env pid).2.validationRun = true → (PATCH env pid).2.tenantAttempted = true) ∧
      ((PATCH env pid).2.updateCalled ≠ none → (PATCH env pid).2.validationRun = true) := by
    cases hs : env.session with
    | error t =>
      cases t with
      | jsError m =>
        cases hm : includesSubstr m "Unauthorized" <;>
          simp [PATCH, PATCHtry, isUnauthorizedThrown, hs, hm]
      | zodError issues m => simp [PATCH, PATCHtry, hs]
      | nonErrorValue => simp [PATCH, PATCHtry, isUnauthorizedThrown, hs]
    | ok s =>
      cases hu : getUserId s with
      | none => simp [PATCH, PATCHtry, hs, hu]
      | some uid =>
        have hA : authOk env := ⟨s, uid, hs, hu⟩
        cases ht : env.tenant with
        | error t =>
          cases t with
          | jsError m =>
            cases hm : includesSubstr m "Unauthorized" <;>
              simp [PATCH, PATCHtry, isUnauthorizedThrown, hs, hu, ht, hm, hA]
          | zodError issues m => simp [PATCH, PATCHtry, hs, hu, ht, hA]
          | nonErrorValue => simp [PATCH, PATCHtry, isUnauthorizedThrown, hs, hu, ht, hA]
        | ok ctx =>
          cases hb : env.body with
          | error t =>
            cases t with
            | jsError m =>
              cases hm : includesSubstr m "Unauthorized" <;>
                simp [PATCH, PATCHtry, isUnauthorizedThrown, hs, hu, ht, hb, hm, hA]
            | zodError issues m => simp [PATCH, PATCHtry, hs, hu, ht, hb, hA]
            | nonErrorValue => simp [PATCH, PATCHtry, isUnauthorizedThrown, hs, hu, ht, hb, hA]
          | ok j =>
            cases hp : parseUpdateEntity j with
            | error issues => simp [PATCH, PATCHtry, hs, hu, ht, hb, hp, hA]
            | ok input =>
              cases hup : env.updateEntityResult with
              | error t =>
                cases t with
                | jsError m =>
                  cases hm : includesSubstr m "Unauthorized" <;>
                    simp [PATCH, PATCHtry, isUnauthorizedThrown, hs, hu, ht, hb, hp, hup, hm, hA]
                | zodError issues m => simp [PATCH, PATCHtry, hs, hu, ht, hb, hp, hup, hA]
                | nonErrorValue =>
                  simp [PATCH, PATCHtry, isUnauthorizedThrown, hs, hu, ht, hb, hp, hup, hA]
              | ok e => simp [PATCH, PATCHtry, hs, hu, ht, hb, hp, hup, hA]
  have hDELETE : ((DELETE env pid).1.status = 401 → (DELETE env pid).2 = {}) ∧
      ((DELETE env pid).2.tenantAttempted = true → authOk env) ∧
      (((DELETE env pid).2.archiveCalled ≠ none ∨ (DELETE env pid).2.deleteCalled ≠ none) →
        (DELETE env pid).2.tenantAttempted = true) := by
    cases hs : env.session with
    | error t =>
      cases hm : isUnauthorizedThrown t <;> simp [DELETE, DELETEtry, hs, hm]
    | ok s =>
      cases hu : getUserId s with
      | none => simp [DELETE, DELETEtry, hs, hu]
      | some uid =>
        have hA : authOk env := ⟨s, uid, hs, hu⟩
        cases ht : env.tenant with
        | error t =>
          cases hm : isUnauthorizedThrown t <;>
            simp [DELETE, DELETEtry, hs, hu, ht, hm, hA]
        | ok ctx =>
          by_cases hq : env.queryPermanent = some "true"
          · cases hd : env.deleteResult with
            | error t =>
              cases hm : isUnauthorizedThrown t <;>
                simp [DELETE, DELETEtry, hs, hu, ht, hq, hd, hm, hA]
            | ok x => simp [DELETE, DELETEtry, hs, hu, ht, hq, hd, hA]
          · cases ha : env.archiveResult with
            | error t =>
              cases hm : isUnauthorizedThrown t <;>
                simp [DELETE, DELETEtry, hs, hu, ht, hq, ha, hm, hA]
            | ok x => simp [DELETE, DELETEtry, hs, hu, ht, hq, ha, hA]
  exact ⟨hGET.1, hGET.2.1, hGET.2.2, hPATCH.1, hPATCH.2.1, hPATCH.2.2.1,
    hPATCH.2.2.2, hDELETE.1, hDELETE.2.1, hDELETE.2.2⟩

/-- Witness for C7: an unauthenticated GET leaves an empty trace, and on a
fully successful environment the step implications are exercised with
their hypotheses discharged concretely. -/
theorem handler_steps_strictly_ordered_w :
    (GET envNoAuth "e1").2 = {} ∧
    authOk envBase ∧
    (PATCH envBase "e1").2.tenantAttempted = true ∧
    (PATCH envBase "e1").2.validationRun = true ∧
    (DELETE envBase "e1").2.tenantAttempted = true := by
  obtain ⟨h401, -, -, -, -, -, -, -, -, -⟩ :=
    handler_steps_strictly_ordered envNoAuth "e1"
  obtain ⟨-, g2, -, -, -, p3, p4, -, -, d3⟩ :=
    handler_steps_strictly_ordered envBase "e1"
  exact ⟨h401 rfl, g2 (by decide), p3 (by decide), p4 (by decide),
    d3 (Or.inl (by decide))⟩

end EntityRoute
